import Mathlib

/-!
Verification of the mapchete-s3 output driver (`mapchete_s3/__init__.py`)
against its natural-language specification.

The development shallowly embeds the driver's pure logic:
tile addressing (`get_bucket_key`, `get_path` via `os.path.join`),
profile construction (`profile`), config validation
(`is_valid_with_config`), the existence probe (`tiles_exist` /
`_any_key_exists`), read/empty, write, and the `InputTile` band
selection.  Object-store state is modelled as an association list of
(key, object) pairs; Python dicts are modelled as functions
`String → Option CVal`.  External collaborators (mapchete, rasterio,
boto3) are modelled only at their interface boundary.
-/

/-! ## Decimal rendering of naturals (Python `str(int)` for non-negative ints)

`str(tile.zoom)` etc. render an unpadded decimal.  We embed this with a
fuel-based digit expansion so that everything reduces by `decide`. -/

/-- One decimal digit as a character (digits 0–9). -/
def digitChar : Nat → Char
  | 0 => '0'
  | 1 => '1'
  | 2 => '2'
  | 3 => '3'
  | 4 => '4'
  | 5 => '5'
  | 6 => '6'
  | 7 => '7'
  | 8 => '8'
  | 9 => '9'
  | _ => '*'

/-- Digit list (most significant first) of `n`, with explicit fuel. -/
def natDigitsAux : Nat → Nat → List Nat
  | _, 0 => []
  | 0, _ + 1 => []
  | fuel + 1, n + 1 => natDigitsAux fuel ((n + 1) / 10) ++ [(n + 1) % 10]

/-- Digit list (most significant first) of `n`; empty for 0. -/
def natDigits (n : Nat) : List Nat := natDigitsAux n n

/-- Python `str(n)` for a non-negative integer: unpadded decimal. -/
def natDecimal (n : Nat) : String :=
  if n = 0 then "0" else String.mk ((natDigits n).map digitChar)

theorem natDigitsAux_ne_nil :
    ∀ fuel n, n ≠ 0 → n ≤ fuel → natDigitsAux fuel n ≠ [] := by
  intro fuel n hn hf
  match fuel, n with
  | 0, n => omega
  | f + 1, n + 1 => simp [natDigitsAux]

theorem natDigitsAux_lt_ten :
    ∀ fuel n d, d ∈ natDigitsAux fuel n → d < 10 := by
  intro fuel
  induction fuel with
  | zero => intro n d hd; cases n <;> simp [natDigitsAux] at hd
  | succ f ih =>
    intro n d hd
    match n with
    | 0 => simp [natDigitsAux] at hd
    | n + 1 =>
      simp only [natDigitsAux, List.mem_append, List.mem_singleton] at hd
      rcases hd with hd | hd
      · exact ih _ _ hd
      · subst hd; exact Nat.mod_lt _ (by omega)

theorem natDigitsAux_foldl :
    ∀ fuel n a, n ≤ fuel →
      List.foldl (fun acc d => 10 * acc + d) a (natDigitsAux fuel n)
        = a * 10 ^ (natDigitsAux fuel n).length + n := by
  intro fuel
  induction fuel with
  | zero =>
    intro n a hn
    interval_cases n
    simp [natDigitsAux]
  | succ f ih =>
    intro n a hn
    match n with
    | 0 => simp [natDigitsAux]
    | n + 1 =>
      have hd : (n + 1) / 10 < n + 1 := Nat.div_lt_self (Nat.succ_pos n) (by omega)
      simp only [natDigitsAux, List.foldl_append, List.foldl_cons, List.foldl_nil,
        List.length_append, List.length_singleton]
      rw [ih ((n + 1) / 10) a (by omega)]
      have hmod := Nat.div_add_mod (n + 1) 10
      set L := (natDigitsAux f ((n + 1) / 10)).length
      rw [pow_succ]
      ring_nf
      omega

theorem natDigits_decode (n : Nat) :
    List.foldl (fun acc d => 10 * acc + d) 0 (natDigits n) = n := by
  have := natDigitsAux_foldl n n 0 le_rfl
  simpa [natDigits] using this

theorem natDigits_inj {n m : Nat} (h : natDigits n = natDigits m) : n = m := by
  have hn := natDigits_decode n
  have hm := natDigits_decode m
  rw [h] at hn
  omega

/-- Inverse of `digitChar` on digit characters. -/
def charDigit : Char → Nat
  | '1' => 1
  | '2' => 2
  | '3' => 3
  | '4' => 4
  | '5' => 5
  | '6' => 6
  | '7' => 7
  | '8' => 8
  | '9' => 9
  | _ => 0

theorem charDigit_digitChar {d : Nat} (hd : d < 10) :
    charDigit (digitChar d) = d := by
  interval_cases d <;> rfl

theorem map_digitChar_inj :
    ∀ l₁ l₂ : List Nat, (∀ d ∈ l₁, d < 10) → (∀ d ∈ l₂, d < 10) →
      l₁.map digitChar = l₂.map digitChar → l₁ = l₂ := by
  intro l₁
  induction l₁ with
  | nil => intro l₂ _ _ h; cases l₂ <;> simp_all
  | cons d t ih =>
    intro l₂ h₁ h₂ h
    cases l₂ with
    | nil => simp at h
    | cons e t₂ =>
      simp only [List.map_cons, List.cons.injEq] at h
      obtain ⟨hde, ht⟩ := h
      have hd : d < 10 := h₁ d (by simp)
      have he : e < 10 := h₂ e (by simp)
      have : d = e := by
        rw [← charDigit_digitChar hd, ← charDigit_digitChar he, hde]
      subst this
      rw [ih t₂ (fun x hx => h₁ x (by simp [hx])) (fun x hx => h₂ x (by simp [hx])) ht]

theorem natDecimal_ne_zero_str {m : Nat} (hm : m ≠ 0) : natDecimal m ≠ "0" := by
  intro h
  unfold natDecimal at h
  rw [if_neg hm] at h
  have hdat : (natDigits m).map digitChar = ['0'] := by
    have := congrArg String.data h
    simpa using this
  have hm0 : natDigits m = [0] :=
    map_digitChar_inj (natDigits m) [0]
      (fun d hd => natDigitsAux_lt_ten m m d hd) (by simp)
      (by rw [hdat]; rfl)
  have hdec := natDigits_decode m
  rw [hm0] at hdec
  simp at hdec
  omega

theorem natDecimal_inj {n m : Nat} (h : natDecimal n = natDecimal m) : n = m := by
  by_cases hn : n = 0 <;> by_cases hm : m = 0
  · omega
  · exact absurd (h.symm.trans (by rw [hn]; rfl)) (natDecimal_ne_zero_str hm)
  · exact absurd (h.trans (by rw [hm]; rfl)) (natDecimal_ne_zero_str hn)
  · unfold natDecimal at h
    rw [if_neg hn, if_neg hm] at h
    have hdat := congrArg String.data h
    simp only [String.mk] at hdat
    exact natDigits_inj (map_digitChar_inj _ _
      (fun d hd => natDigitsAux_lt_ten n n d hd)
      (fun d hd => natDigitsAux_lt_ten m m d hd) hdat)

/-! ## Tile addressing (`get_bucket_key`, `get_path`)

`os.path.join` on POSIX: for each extra component `b`, if `b` starts with
the separator the path restarts at `b`; else if the accumulated path is
empty or ends with the separator, `b` is appended directly; else a
separator is inserted. -/

/-- Python `b.startswith("/")`. -/
def startsWithSlash (s : String) : Bool :=
  match s.data with
  | [] => false
  | c :: _ => c = '/'

/-- Python `path.endswith("/")`. -/
def endsWithSlash (s : String) : Bool :=
  s.data.getLast? = some '/'

/-- One step of POSIX `os.path.join`. -/
def posixJoin2 (path b : String) : String :=
  if startsWithSlash b then b
  else if path = "" ∨ endsWithSlash path then path ++ b
  else path ++ "/" ++ b

/-- POSIX `os.path.join(a, *rest)`. -/
def posixJoin (a : String) (rest : List String) : String :=
  rest.foldl posixJoin2 a

/-- Tile of a pyramid: addressing coordinate plus geometry, as consumed by
the driver (`tile.zoom`, `tile.row`, `tile.col`, `tile.shape`, `tile.crs`,
`tile.affine`, `tile.width`, `tile.height`). -/
structure Tile where
  zoom : Nat
  row : Nat
  col : Nat
  height : Nat
  width : Nat
  crs : String
  affine : Int × Int × Int × Int × Int × Int
  deriving DecidableEq, Repr

/-- `OutputData.get_bucket_key`:
`os.path.join(basekey, str(zoom), str(row), str(col)) + ".tif"`
(`self.file_extension` is set to `".tif"` in `__init__`). -/
def get_bucket_key (basekey : String) (tile : Tile) : String :=
  posixJoin basekey [natDecimal tile.zoom, natDecimal tile.row, natDecimal tile.col]
    ++ ".tif"

/-- `OutputData.get_path`: `os.path.join("s3://", bucket, key)`. -/
def get_path (bucket : String) (basekey : String) (tile : Tile) : String :=
  posixJoin "s3://" [bucket, get_bucket_key basekey tile]

theorem natDecimal_chars {n : Nat} {c : Char} (hc : c ∈ (natDecimal n).data) :
    c ≠ '/' ∧ c ≠ '.' := by
  unfold natDecimal at hc
  split at hc
  · simp at hc
    subst hc
    exact ⟨by decide, by decide⟩
  · simp only [String.mk, List.mem_map] at hc
    obtain ⟨d, hd, rfl⟩ := hc
    refine ⟨?_, ?_⟩
    · unfold digitChar; split <;> decide
    · unfold digitChar; split <;> decide

theorem natDecimal_ne_empty (n : Nat) : (natDecimal n).data ≠ [] := by
  unfold natDecimal
  split
  · decide
  · simp only [String.mk]
    intro h
    have := natDigitsAux_ne_nil n n (by assumption) le_rfl
    simp only [natDigits] at *
    exact this (List.map_eq_nil.mp h)

theorem startsWithSlash_natDecimal (n : Nat) :
    startsWithSlash (natDecimal n) = false := by
  unfold startsWithSlash
  rcases h : (natDecimal n).data with _ | ⟨c, l⟩
  · rfl
  · have hc : c ∈ (natDecimal n).data := by rw [h]; simp
    have := (natDecimal_chars hc).1
    simpa using this

theorem endsWithSlash_append_natDecimal (s : String) (n : Nat) :
    endsWithSlash (s ++ natDecimal n) = false := by
  unfold endsWithSlash
  rw [String.data_append]
  rw [List.getLast?_append_of_ne_nil _ (natDecimal_ne_empty n)]
  rcases h : (natDecimal n).data.getLast? with _ | c
  · rfl
  · have hc : c ∈ (natDecimal n).data := by
      obtain ⟨hne, hgl⟩ :=
        List.mem_getLast?_eq_getLast (Option.mem_def.mpr h)
      rw [hgl]
      exact List.getLast_mem hne
    have := (natDecimal_chars hc).1
    simpa using this

theorem string_ne_empty_of_data {s : String} (h : s.data ≠ []) : s ≠ "" := by
  intro he
  subst he
  exact h rfl

theorem append_natDecimal_ne_empty (s : String) (n : Nat) :
    s ++ natDecimal n ≠ "" := by
  apply string_ne_empty_of_data
  rw [String.data_append]
  intro h
  exact natDecimal_ne_empty n (List.append_eq_nil.mp h).2

theorem posixJoin2_step {p : String} (hp : p ≠ "") (hpe : endsWithSlash p = false)
    (n : Nat) : posixJoin2 p (natDecimal n) = p ++ "/" ++ natDecimal n := by
  unfold posixJoin2
  rw [startsWithSlash_natDecimal]
  simp [hp, hpe]

theorem posixJoin2_flat {p : String} (hp : p = "" ∨ endsWithSlash p = true)
    (n : Nat) : posixJoin2 p (natDecimal n) = p ++ natDecimal n := by
  unfold posixJoin2
  rw [startsWithSlash_natDecimal]
  rcases hp with hp | hp <;> simp [hp]

/-- For a basekey that is nonempty and does not end in a separator,
`get_bucket_key` is plain concatenation with `/` separators. -/
theorem get_bucket_key_formula {basekey : String} (hb : basekey ≠ "")
    (hbe : endsWithSlash basekey = false) (t : Tile) :
    get_bucket_key basekey t =
      basekey ++ "/" ++ natDecimal t.zoom ++ "/" ++ natDecimal t.row
        ++ "/" ++ natDecimal t.col ++ ".tif" := by
  unfold get_bucket_key posixJoin
  simp only [List.foldl_cons, List.foldl_nil]
  rw [posixJoin2_step hb hbe]
  rw [posixJoin2_step (append_natDecimal_ne_empty _ _)
    (endsWithSlash_append_natDecimal _ _)]
  rw [posixJoin2_step (append_natDecimal_ne_empty _ _)
    (endsWithSlash_append_natDecimal _ _)]

/-- Splitting an append at a separator character that occurs in neither
left part determines both parts. -/
theorem sep_split_inj :
    ∀ (xs ys u v : List Char), (∀ c ∈ xs, c ≠ '/') → (∀ c ∈ ys, c ≠ '/') →
      xs ++ '/' :: u = ys ++ '/' :: v → xs = ys ∧ u = v := by
  intro xs
  induction xs with
  | nil =>
    intro ys u v _ hy h
    cases ys with
    | nil => simpa using h
    | cons y t =>
      exfalso
      simp only [List.nil_append, List.cons_append, List.cons.injEq] at h
      exact hy y (by simp) h.1.symm
  | cons x xs ih =>
    intro ys u v hx hy h
    cases ys with
    | nil =>
      exfalso
      simp only [List.cons_append, List.nil_append, List.cons.injEq] at h
      exact hx x (by simp) h.1
    | cons y t =>
      simp only [List.cons_append, List.cons.injEq] at h
      obtain ⟨rfl, h⟩ := h
      obtain ⟨h1, h2⟩ := ih t u v (fun c hc => hx c (by simp [hc]))
        (fun c hc => hy c (by simp [hc])) h
      exact ⟨by rw [h1], h2⟩

theorem natDecimal_data_noslash (n : Nat) :
    ∀ c ∈ (natDecimal n).data, c ≠ '/' :=
  fun c hc => (natDecimal_chars hc).1

/-- Injectivity of the decimal triple part of a bucket key. -/
theorem decimal_triple_inj {z r c z' r' c' : Nat}
    (h : (natDecimal z).data ++ '/' :: ((natDecimal r).data ++ '/' ::
          ((natDecimal c).data ++ ".tif".data))
        = (natDecimal z').data ++ '/' :: ((natDecimal r').data ++ '/' ::
          ((natDecimal c').data ++ ".tif".data))) :
    z = z' ∧ r = r' ∧ c = c' := by
  obtain ⟨hz, h⟩ := sep_split_inj _ _ _ _
    (natDecimal_data_noslash z) (natDecimal_data_noslash z') h
  obtain ⟨hr, h⟩ := sep_split_inj _ _ _ _
    (natDecimal_data_noslash r) (natDecimal_data_noslash r') h
  have hc : (natDecimal c).data = (natDecimal c').data :=
    List.append_cancel_right h
  refine ⟨natDecimal_inj (String.ext hz), natDecimal_inj (String.ext hr),
    natDecimal_inj (String.ext hc)⟩

theorem data_ne_nil_of_ne_empty {s : String} (h : s ≠ "") : s.data ≠ [] := by
  intro hd
  exact h (String.ext hd)

theorem startsWithSlash_append_left {s : String} (hs : s.data ≠ []) (t : String) :
    startsWithSlash (s ++ t) = startsWithSlash s := by
  unfold startsWithSlash
  rw [String.data_append]
  rcases h : s.data with _ | ⟨c, l⟩
  · exact absurd h hs
  · simp

/-- For a fixed basekey, `get_bucket_key` is injective in (zoom, row, col). -/
theorem get_bucket_key_inj (basekey : String) (t t' : Tile)
    (h : get_bucket_key basekey t = get_bucket_key basekey t') :
    t.zoom = t'.zoom ∧ t.row = t'.row ∧ t.col = t'.col := by
  unfold get_bucket_key posixJoin at h
  simp only [List.foldl_cons, List.foldl_nil] at h
  by_cases hb : basekey = "" ∨ endsWithSlash basekey = true
  · rw [posixJoin2_flat hb, posixJoin2_flat hb] at h
    rw [posixJoin2_step (append_natDecimal_ne_empty _ _)
      (endsWithSlash_append_natDecimal _ _)] at h
    rw [posixJoin2_step (append_natDecimal_ne_empty _ _)
      (endsWithSlash_append_natDecimal _ _)] at h
    rw [posixJoin2_step (append_natDecimal_ne_empty _ _)
      (endsWithSlash_append_natDecimal _ _)] at h
    rw [posixJoin2_step (append_natDecimal_ne_empty _ _)
      (endsWithSlash_append_natDecimal _ _)] at h
    have h' := congrArg String.data h
    simp only [String.data_append, List.append_assoc] at h'
    exact decimal_triple_inj (List.append_cancel_left h')
  · push_neg at hb
    obtain ⟨hb1, hb2⟩ := hb
    have hb2' : endsWithSlash basekey = false := by
      simpa using hb2
    rw [posixJoin2_step hb1 hb2', posixJoin2_step hb1 hb2'] at h
    rw [posixJoin2_step (append_natDecimal_ne_empty _ _)
      (endsWithSlash_append_natDecimal _ _)] at h
    rw [posixJoin2_step (append_natDecimal_ne_empty _ _)
      (endsWithSlash_append_natDecimal _ _)] at h
    rw [posixJoin2_step (append_natDecimal_ne_empty _ _)
      (endsWithSlash_append_natDecimal _ _)] at h
    rw [posixJoin2_step (append_natDecimal_ne_empty _ _)
      (endsWithSlash_append_natDecimal _ _)] at h
    have h' := congrArg String.data h
    simp only [String.data_append, List.append_assoc] at h'
    have h'' := List.append_cancel_left h'
    simp only [List.singleton_append, List.cons.injEq, true_and] at h''
    exact decimal_triple_inj h''

/-- `get_path` embeds the bucket and the key verbatim:
`s3://{bucket}/{key}`. -/
theorem get_path_formula {bucket basekey : String}
    (hbu : bucket ≠ "") (hbue : endsWithSlash bucket = false)
    (hbus : startsWithSlash bucket = false)
    (hb : basekey ≠ "") (hbe : endsWithSlash basekey = false)
    (hbs : startsWithSlash basekey = false) (t : Tile) :
    get_path bucket basekey t =
      "s3://" ++ bucket ++ "/" ++ get_bucket_key basekey t := by
  unfold get_path posixJoin
  simp only [List.foldl_cons, List.foldl_nil]
  have step1 : posixJoin2 "s3://" bucket = "s3://" ++ bucket := by
    unfold posixJoin2
    rw [hbus]
    have : endsWithSlash "s3://" = true := rfl
    simp [this]
  rw [step1]
  have hkey : startsWithSlash (get_bucket_key basekey t) = false := by
    rw [get_bucket_key_formula hb hbe]
    have h1 : (basekey ++ "/" ++ natDecimal t.zoom ++ "/" ++ natDecimal t.row
        ++ "/" ++ natDecimal t.col ++ ".tif")
        = basekey ++ ("/" ++ natDecimal t.zoom ++ "/" ++ natDecimal t.row
          ++ "/" ++ natDecimal t.col ++ ".tif") := by
      simp [String.append_assoc]
    rw [h1, startsWithSlash_append_left (data_ne_nil_of_ne_empty hb)]
    exact hbs
  unfold posixJoin2
  rw [hkey]
  have hne : ("s3://" ++ bucket : String) ≠ "" := by
    apply string_ne_empty_of_data
    rw [String.data_append]
    simp
  have hends : endsWithSlash ("s3://" ++ bucket) = false := by
    unfold endsWithSlash
    rw [String.data_append]
    rw [List.getLast?_append_of_ne_nil _ (data_ne_nil_of_ne_empty hbu)]
    unfold endsWithSlash at hbue
    simpa using hbue
  simp [hne, hends]

/-! ## Python values, dicts, and errors -/

/-- Values stored in a rasterio profile dictionary. -/
inductive CVal where
  | str (s : String)
  | int (i : Int)
  | boolean (b : Bool)
  | crsv (s : String)
  | affv (a : Int × Int × Int × Int × Int × Int)
  deriving DecidableEq, Repr

/-- A Python dict with string keys (profile dictionaries). -/
abbrev PyDict := String → Option CVal

def PyDict.set (d : PyDict) (k : String) (v : CVal) : PyDict :=
  fun q => if q = k then some v else d q

def PyDict.pop (d : PyDict) (k : String) : PyDict :=
  fun q => if q = k then none else d q

def PyDict.empty : PyDict := fun _ => none

/-- Python exceptions raised by the driver. -/
inductive PyErr where
  | notImplementedError (msg : String)
  | valueError (msg : String)
  | keyError (key : String)
  deriving DecidableEq, Repr

/-! ## `OutputData.__init__` -/

/-- `output_params` consumed by the driver (already-loaded config). -/
structure OutputParams where
  profile : PyDict
  basekey : String
  bucket : String

/-- Driver state created by `OutputData.__init__`. -/
structure OutputDataState where
  output_params : OutputParams
  file_extension : String
  nodata : CVal
  bucket : String

/-- `OutputData.__init__`: rejects any profile driver other than
`"GTiff"` with a `NotImplementedError` before touching anything else;
otherwise records the file extension, nodata default (0) and bucket. -/
def OutputData.init (p : OutputParams) : Except PyErr OutputDataState :=
  match p.profile "driver" with
  | none => .error (.keyError "driver")
  | some v =>
    if v ≠ CVal.str "GTiff" then
      .error (.notImplementedError "other drivers thatn GTiff not yet supported")
    else
      .ok { output_params := p, file_extension := ".tif",
            nodata := (p.profile "nodata").getD (.int 0), bucket := p.bucket }

/-! ## `OutputData.profile` -/

/-- `OutputData.profile`: builds the rasterio metadata dict from
`gtiff.GTIFF_PROFILE` (an external mapchete collaborator, passed in as
`base`), the static `output_params["profile"]` dict and an optional tile.
The `try` block first consults the deprecated `compression` key, else
reads `compress` (a `KeyError` here skips the rest of the block), then
reads `predictor` (a `KeyError` here is swallowed after `compress` was
already set).  Returns `none` when a `KeyError` escapes the whole call
(missing `bands` or `dtype`). -/
def OutputData.profile (base : PyDict) (out_profile : PyDict)
    (tile : Option Tile) : Option PyDict :=
  match out_profile "bands", out_profile "dtype" with
  | some bands, some dtype =>
  let d := ((base.set "count" bands).set "dtype" dtype).set "driver" (.str "GTiff")
  let d := d.pop "transform"
  let d := match tile with
    | some t =>
      (((d.set "crs" (.crsv t.crs)).set "width" (.int t.width)).set
        "height" (.int t.height)).set "affine" (.affv t.affine)
    | none => (((d.pop "crs").pop "width").pop "height").pop "affine"
  let d := match out_profile "nodata" with
    | some v => d.set "nodata" v
    | none => d
  let d := match out_profile "compression" with
    | some v =>
      let d := d.set "compress" v
      match out_profile "predictor" with
      | some q => d.set "predictor" q
      | none => d
    | none =>
      match out_profile "compress" with
      | some v =>
        let d := d.set "compress" v
        match out_profile "predictor" with
        | some q => d.set "predictor" q
        | none => d
      | none => d
  some d
  | _, _ => none

/-! ## `OutputData.is_valid_with_config` -/

/-- Types checked by config validation. -/
inductive VType where
  | tstr
  | tint
  | tdict
  deriving DecidableEq, Repr

/-- Values occurring in raw output configuration. -/
inductive ConfVal where
  | str (s : String)
  | int (i : Int)
  | dict (d : List (String × ConfVal))
  deriving Repr

def confHasType : ConfVal → VType → Bool
  | .str _, .tstr => true
  | .int _, .tint => true
  | .dict _, .tdict => true
  | _, _ => false

/-- Modelled from the spec: `mapchete.config.validate_values` is an
external collaborator; per the spec, "Validation failure (missing/
wrong-typed required keys)" — true iff each required key is present with
the required type. -/
def validate_values (config : List (String × ConfVal))
    (values : List (String × VType)) : Bool :=
  values.all fun kv =>
    match config.lookup kv.1 with
    | some v => confHasType v kv.2
    | none => false

/-- `OutputData.is_valid_with_config`: `all` of the two validations; the
result is `none` when `config["profile"]` is absent or not a dict (the
subscript/collaborator raises outside this module's control flow). -/
def is_valid_with_config (config : List (String × ConfVal)) : Option Bool :=
  match config.lookup "profile" with
  | some (.dict p) =>
    some (validate_values config
        [("profile", .tdict), ("basekey", .tstr), ("bucket", .tstr)]
      && validate_values p
        [("driver", .tstr), ("bands", .tint), ("dtype", .tstr)])
  | _ => none

/-! ## Masked arrays, the object store, existence probing -/

/-- Masked array: (bands × height × width) values with a parallel mask
(`true` = masked/no-data). -/
structure MaskedArray where
  data : List (List (List Int))
  mask : List (List (List Bool))
  deriving DecidableEq, Repr

/-- `arr.mask.all()`. -/
def MaskedArray.maskAll (a : MaskedArray) : Bool :=
  a.mask.all fun p => p.all fun r => r.all id

def full3 {α : Type} (c h w : Nat) (v : α) : List (List (List α)) :=
  List.replicate c (List.replicate h (List.replicate w v))

/-- Bucket contents: listing of (key, stored object); a stored object is
modelled by the masked array it decodes to. -/
abbrev Store := List (String × MaskedArray)

/-- `bucket.put_object(Key=key, Body=obj)`: unconditional overwrite. -/
def putObject (store : Store) (key : String) (obj : MaskedArray) : Store :=
  (key, obj) :: store.filter fun kv => kv.1 != key

/-- `_any_key_exists` (closure in `tiles_exist`): iterates over `keys`,
scans the listing restricted to names extending the first key and compares
for an exact match — the `return False` sits in the outer loop, so the
first key decides the answer and later keys are never consulted; an empty
`keys` falls through and returns `None`. -/
def beginsWithAux : List Char → List Char → Bool
  | _, [] => true
  | [], _ :: _ => false
  | c :: s, d :: p => c == d && beginsWithAux s p

/-- Object-listing name filtering: does `s` begin with `p`? -/
def beginsWith (s p : String) : Bool :=
  beginsWithAux s.data p.data

def _any_key_exists (store : Store) : List String → Option Bool
  | [] => none
  | key :: _ =>
    some ((store.filter fun kv => beginsWith kv.1 key).any fun kv => kv.1 == key)

/-- `OutputData.tiles_exist`: raises `ValueError` when both tiles are
given; probes the intersecting output tiles' keys for a process tile, the
single key for an output tile; falls through to `None` when neither is
given. -/
def tiles_exist (basekey : String) (intersecting : Tile → List Tile)
    (store : Store) (process_tile : Option Tile) (output_tile : Option Tile) :
    Except PyErr (Option Bool) :=
  if process_tile.isSome && output_tile.isSome then
    .error (.valueError "just one of 'process_tile' and 'output_tile' allowed")
  else
    match process_tile with
    | some pt =>
      .ok (_any_key_exists store ((intersecting pt).map (get_bucket_key basekey)))
    | none =>
      match output_tile with
      | some t => .ok (_any_key_exists store [get_bucket_key basekey t])
      | none => .ok none

/-! ## `OutputData.empty`, `OutputData.read`, `OutputData.write` -/

/-- `OutputData.empty`: array of shape (count, height, width) filled with
the profile's nodata, fully masked.  `none` models a `KeyError` for a
profile missing `count`/`nodata`. -/
def OutputData.empty (base out_profile : PyDict) (process_tile : Tile) :
    Option MaskedArray :=
  match OutputData.profile base out_profile (some process_tile) with
  | none => none
  | some p =>
    match p "count", p "nodata" with
    | some (.int c), some (.int nd) =>
      some { data := full3 c.toNat process_tile.height process_tile.width nd,
             mask := full3 c.toNat process_tile.height process_tile.width true }
    | _, _ => none

/-- `OutputData.read`: `if self.tiles_exist(output_tile)` (the tile is
passed positionally, i.e. as `process_tile`), decode the object at the
tile's path when truthy, else return `empty`.  `none` models a raised
exception (e.g. `rasterio.open` on a missing object). -/
def OutputData.read (base out_profile : PyDict) (basekey : String)
    (intersecting : Tile → List Tile) (store : Store) (output_tile : Tile) :
    Option MaskedArray :=
  match tiles_exist basekey intersecting store (some output_tile) none with
  | .error _ => none
  | .ok r =>
    if r = some true then
      store.lookup (get_bucket_key basekey output_tile)
    else
      OutputData.empty base out_profile output_tile

/-- Metadata tags attached at write time. -/
abbrev Tags := List (String × String)

/-- The `data` argument of `write`: either a bare array-like or a
`(data, tags)` pair (a 2-tuple whose second item is a dict). -/
inductive WriteInput (α : Type) where
  | plain (data : α)
  | withTags (data : α) (tags : Tags)

/-- `OutputData.write`: split off tags; normalize via `prepare_array`
(mapchete collaborator, passed as a function) against the driver's nodata
and the process tile profile's dtype; return without touching the store
when the normalized data is fully masked; otherwise render (collaborator
`RasterWindowMemoryFile`) and upload one object per intersecting output
tile.  Result: `(new store, uploaded keys)`; `none` models an escaping
`KeyError` from profile construction. -/
def OutputData.write {α : Type} (base out_profile : PyDict) (basekey : String)
    (nodata : CVal) (intersecting : Tile → List Tile)
    (prepare_array : α → CVal → CVal → MaskedArray)
    (render : Tile → MaskedArray → Tags → MaskedArray)
    (process_tile : Tile) (input : WriteInput α) (store : Store) :
    Option (Store × List String) :=
  let (data0, tags) := match input with
    | .withTags d t => (d, t)
    | .plain d => (d, ([] : Tags))
  match OutputData.profile base out_profile (some process_tile) with
  | none => none
  | some p =>
    match p "dtype" with
    | none => none
    | some dtype =>
      let data := prepare_array data0 nodata dtype
      if data.maskAll then
        some (store, [])
      else
        some ((intersecting process_tile).foldl
          (fun acc tile =>
            (putObject acc.1 (get_bucket_key basekey tile) (render tile data tags),
              acc.2 ++ [get_bucket_key basekey tile]))
          (store, []))

/-! ## `InputTile` -/

/-- The `indexes` argument of `InputTile.read`: omitted, a single band
number, or a list of band numbers. -/
inductive BandIndexes where
  | noneGiven
  | single (i : Int)
  | list (l : List Int)
  deriving DecidableEq, Repr

/-- `range(1, count + 1)` as a list of Python ints. -/
def bandRange (count : Int) : List Int :=
  (List.range count.toNat).map fun k => Int.ofNat k + 1

/-- `InputTile._get_band_indexes`: a truthy `indexes` is returned as a
list (wrapped if scalar); a falsy one (`None`, `0`, `[]`) yields
`range(1, count + 1)` with `count` from the output profile. -/
def _get_band_indexes (count : Int) : BandIndexes → List Int
  | .single i => if i ≠ 0 then [i] else bandRange count
  | .list l => if l ≠ [] then l else bandRange count
  | .noneGiven => bandRange count

/-- Result of `InputTile.read`: a single 2-D band or a 3-D stack. -/
inductive ReadResult (β : Type) where
  | band2D (band : β)
  | stacked (bands : List β)
  deriving DecidableEq, Repr

/-- `InputTile.read`: fetch the orchestrator's raw output (`arr`, indexed
0-based per band), then `arr[i-1]` for a single requested band, else the
stack of `arr[i-1]` in requested order. -/
def InputTile.read {β : Type} (arr : Int → β) (count : Int)
    (indexes : BandIndexes) : ReadResult β :=
  match _get_band_indexes count indexes with
  | [i] => .band2D (arr (i - 1))
  | l => .stacked (l.map fun i => arr (i - 1))

/-- The data part of `write`'s input. -/
def WriteInput.payload {α : Type} : WriteInput α → α
  | .plain d => d
  | .withTags d _ => d

/-! ## Fixtures used by witnesses and counterexamples -/

/-- The spec's example tile (zoom 5, row 15, col 32). -/
def sampleTile : Tile :=
  { zoom := 5, row := 15, col := 32, height := 256, width := 256,
    crs := "EPSG:3857", affine := (1, 0, 0, 0, 1, 0) }

/-- A neighbouring output tile (zoom 5, row 15, col 33). -/
def sampleTile2 : Tile :=
  { zoom := 5, row := 15, col := 33, height := 256, width := 256,
    crs := "EPSG:3857", affine := (1, 0, 0, 0, 1, 0) }

/-- A stored object (decoded content). -/
def sampleArr : MaskedArray :=
  { data := [[[7]]], mask := [[[false]]] }

/-- A bucket listing holding only the second sample tile's object. -/
def c1Store : Store := [(get_bucket_key "k" sampleTile2, sampleArr)]

/-- Output profile configuration carrying both the legacy `compression`
key and the `compress` key, with distinct values. -/
def c2Profile : PyDict :=
  ((((PyDict.empty.set "driver" (.str "GTiff")).set "bands" (.int 1)).set
      "dtype" (.str "uint8")).set "compression" (.str "deflate")).set
    "compress" (.str "lzw")

/-- Fully-typed output profile configuration for witnesses. -/
def sampleProfile : PyDict :=
  (((PyDict.empty.set "driver" (.str "GTiff")).set "bands" (.int 3)).set
      "dtype" (.str "uint8")).set "nodata" (.int 5)

/-- A stand-in for the collaborator's `GTIFF_PROFILE` base dict in
witnesses (no compress/predictor entries). -/
def sampleBase : PyDict :=
  (PyDict.empty.set "tiled" (.boolean true)).set "interleave" (.str "band")

/-! ## Evaluation of `OutputData.profile` lookups -/

theorem profile_lookups (base out_profile : PyDict) (tile : Option Tile)
    (b dt : CVal) (hb : out_profile "bands" = some b)
    (hd : out_profile "dtype" = some dt) :
    ∃ p, OutputData.profile base out_profile tile = some p
      ∧ p "count" = some b
      ∧ p "dtype" = some dt
      ∧ p "nodata" = (match out_profile "nodata" with
          | some v => some v
          | none => base "nodata")
      ∧ p "compress" = (match out_profile "compression" with
          | some v => some v
          | none => match out_profile "compress" with
            | some v => some v
            | none => base "compress")
      ∧ p "predictor" = (match out_profile "compression", out_profile "compress" with
          | none, none => base "predictor"
          | _, _ => match out_profile "predictor" with
            | some q => some q
            | none => base "predictor") := by
  unfold OutputData.profile
  rw [hb, hd]
  refine ⟨_, rfl, ?_, ?_, ?_, ?_, ?_⟩ <;>
    rcases h1 : out_profile "compression" with _ | v1 <;>
      rcases h2 : out_profile "compress" with _ | v2 <;>
        rcases h3 : out_profile "predictor" with _ | v3 <;>
          rcases h4 : out_profile "nodata" with _ | v4 <;>
            rcases tile with _ | t <;>
              simp [PyDict.set, PyDict.pop, h1, h2, h3, h4]

/-! ## Shared read/probe lemmas -/

theorem any_exact_eq_false {store : Store} {key : String}
    (habs : ∀ kv ∈ store, kv.1 ≠ key) :
    ((store.filter fun kv => beginsWith kv.1 key).any fun kv => kv.1 == key)
      = false := by
  rw [List.any_eq_false]
  intro kv hkv
  have hne := habs kv (List.mem_of_mem_filter hkv)
  simp [hne]

/-- A tile whose canonical key has no object in the listing (and whose
only intersecting output tile is itself) reads as `empty`. -/
theorem read_absent_eq_empty (base out_profile : PyDict) (basekey : String)
    (intersecting : Tile → List Tile) (store : Store) (t : Tile)
    (hint : intersecting t = [t])
    (habs : ∀ kv ∈ store, kv.1 ≠ get_bucket_key basekey t) :
    OutputData.read base out_profile basekey intersecting store t
      = OutputData.empty base out_profile t := by
  unfold OutputData.read tiles_exist
  have hfalse : ((store.filter fun kv => beginsWith kv.1 (get_bucket_key basekey t)).any
      fun kv => kv.1 == get_bucket_key basekey t) = false :=
    any_exact_eq_false habs
  simp [_any_key_exists, hint, hfalse]

/-! ## Claim theorems -/

/-- C5: for every valid (basekey, zoom, row, col) — the basekey nonempty
and without a leading or trailing separator, likewise the bucket — the
object key equals `basekey ++ "/" ++ zoom ++ "/" ++ row ++ "/" ++ col ++
".tif"` with the coordinates rendered as unpadded decimals; the key
function is deterministic (it is a pure function of its arguments) and
injective in (zoom, row, col) for fixed basekey; and `get_path` embeds the
bucket and the key verbatim as `s3://{bucket}/{key}`. -/
theorem C5_key_format_inj_path (basekey bucket : String) (t t' : Tile)
    (hb : basekey ≠ "") (hbe : endsWithSlash basekey = false)
    (hbs : startsWithSlash basekey = false)
    (hbu : bucket ≠ "") (hbue : endsWithSlash bucket = false)
    (hbus : startsWithSlash bucket = false) :
    get_bucket_key basekey t
        = basekey ++ "/" ++ natDecimal t.zoom ++ "/" ++ natDecimal t.row
          ++ "/" ++ natDecimal t.col ++ ".tif"
      ∧ (get_bucket_key basekey t = get_bucket_key basekey t' →
          t.zoom = t'.zoom ∧ t.row = t'.row ∧ t.col = t'.col)
      ∧ get_path bucket basekey t
        = "s3://" ++ bucket ++ "/" ++ get_bucket_key basekey t :=
  ⟨get_bucket_key_formula hb hbe t, get_bucket_key_inj basekey t t',
    get_path_formula hbu hbue hbus hb hbe hbs t⟩

/-- Witness for C5 at the spec's Scenario A input: basekey `_test/run1`,
tile (5, 15, 32) yields key `_test/run1/5/15/32.tif`. -/
theorem C5_key_format_inj_path_witness :
    get_bucket_key "_test/run1" sampleTile = "_test/run1/5/15/32.tif"
      ∧ (get_bucket_key "_test/run1" sampleTile
            = "_test/run1" ++ "/" ++ natDecimal sampleTile.zoom ++ "/"
              ++ natDecimal sampleTile.row ++ "/" ++ natDecimal sampleTile.col
              ++ ".tif"
          ∧ (get_bucket_key "_test/run1" sampleTile
                = get_bucket_key "_test/run1" sampleTile2 →
              sampleTile.zoom = sampleTile2.zoom
                ∧ sampleTile.row = sampleTile2.row
                ∧ sampleTile.col = sampleTile2.col)
          ∧ get_path "bkt" "_test/run1" sampleTile
            = "s3://" ++ "bkt" ++ "/" ++ get_bucket_key "_test/run1" sampleTile) :=
  ⟨by decide,
    C5_key_format_inj_path "_test/run1" "bkt" sampleTile sampleTile2
      (by decide) (by decide) (by decide) (by decide) (by decide) (by decide)⟩

/-- C6: a profile driver different from "GTiff" makes construction fail
immediately (`OutputData.__init__` raises before any further field is set
and before any I/O can happen; the spec's error taxonomy files this
construction-time rejection of a wrong driver kind under Configuration
errors — the Python exception class is `NotImplementedError`). -/
theorem C6_unsupported_driver_rejected (p : OutputParams) (v : CVal)
    (hd : p.profile "driver" = some v) (hv : v ≠ CVal.str "GTiff") :
    OutputData.init p = .error (.notImplementedError
      "other drivers thatn GTiff not yet supported") := by
  unfold OutputData.init
  rw [hd]
  simp [hv]

/-- Witness for C6: a profile configured with driver "PNG" is rejected. -/
theorem C6_unsupported_driver_rejected_witness :
    OutputData.init
        { profile := PyDict.empty.set "driver" (.str "PNG"),
          basekey := "k", bucket := "b" }
      = .error (.notImplementedError
          "other drivers thatn GTiff not yet supported") :=
  C6_unsupported_driver_rejected _ (CVal.str "PNG") (by decide) (by decide)

/-- C10: calling `tiles_exist` with neither tile argument returns `None`
(no boolean) and raises nothing — the function falls through all
branches — while supplying both arguments raises `ValueError`. -/
theorem C10_tiles_exist_no_args (basekey : String)
    (intersecting : Tile → List Tile) (store : Store) (pt ot : Tile) :
    tiles_exist basekey intersecting store none none = .ok none
      ∧ tiles_exist basekey intersecting store (some pt) (some ot)
        = .error (.valueError
            "just one of 'process_tile' and 'output_tile' allowed") :=
  ⟨rfl, rfl⟩

/-- C1 (evaluation of the defect): a process tile with two intersecting
output tiles, where only the SECOND tile's canonical key has a stored
object; the probe answers `False` even though an intersecting tile's
object exists, because `_any_key_exists` returns after examining only the
first key. -/
theorem C1_probe_consults_only_first_key :
    (c1Store.lookup (get_bucket_key "k" sampleTile2)).isSome = true
      ∧ tiles_exist "k" (fun _ => [sampleTile, sampleTile2]) c1Store
          (some sampleTile) none = .ok (some false) := by
  constructor
  · rfl
  · rfl

/-- C2 (counterexample): with both `compression` ("deflate") and
`compress` ("lzw") configured, the built profile's compress entry is the
`compression` value, not the `compress` value — the claimed precedence of
`compress` over `compression` fails. -/
theorem C2_counterexample :
    c2Profile "compression" = some (.str "deflate")
      ∧ c2Profile "compress" = some (.str "lzw")
      ∧ (OutputData.profile PyDict.empty c2Profile none).map
          (fun d => d "compress") = some (some (.str "deflate"))
      ∧ (OutputData.profile PyDict.empty c2Profile none).map
          (fun d => d "compress") ≠ some (some (.str "lzw")) :=
  ⟨by decide, by decide, by decide, by decide⟩

/-- C2 (amended): when both the legacy `compression` key and the
`compress` key are configured, the built profile carries the value of
`compression` (the legacy key takes precedence, after a deprecation
warning); when neither key is present, `profile()` adds no compress entry
of its own — the result's compress entry is exactly the collaborator base
profile's (so it is absent whenever the base has none). -/
theorem C2_compression_precedence (base out_profile : PyDict) (b dt : CVal)
    (hb : out_profile "bands" = some b) (hd : out_profile "dtype" = some dt) :
    (∀ v w, out_profile "compression" = some v →
      out_profile "compress" = some w →
      (OutputData.profile base out_profile none).map (fun d => d "compress")
        = some (some v))
    ∧ (out_profile "compression" = none → out_profile "compress" = none →
      (OutputData.profile base out_profile none).map (fun d => d "compress")
        = some (base "compress")) := by
  obtain ⟨p, hp, -, -, -, hcomp, -⟩ :=
    profile_lookups base out_profile none b dt hb hd
  constructor
  · intro v w h1 h2
    rw [h1] at hcomp
    simp only [] at hcomp
    rw [hp]
    simp [hcomp]
  · intro h1 h2
    rw [h1, h2] at hcomp
    simp only [] at hcomp
    rw [hp]
    simp [hcomp]

/-- Witness for C2 (amended) at the two-key profile `c2Profile`. -/
theorem C2_compression_precedence_witness :
    c2Profile "bands" = some (.int 1)
      ∧ c2Profile "dtype" = some (.str "uint8")
      ∧ ((∀ v w, c2Profile "compression" = some v →
            c2Profile "compress" = some w →
            (OutputData.profile sampleBase c2Profile none).map
              (fun d => d "compress") = some (some v))
        ∧ (c2Profile "compression" = none → c2Profile "compress" = none →
            (OutputData.profile sampleBase c2Profile none).map
              (fun d => d "compress") = some (sampleBase "compress"))) :=
  ⟨by decide, by decide,
    C2_compression_precedence sampleBase c2Profile (.int 1) (.str "uint8")
      (by decide) (by decide)⟩

/-- C9: when the output profile configures neither `compress` nor
`compression`, a configured `predictor` is silently dropped — the
`KeyError` raised while reading the missing `compress` key is swallowed
before the predictor update runs, so the built profile has no predictor
entry (given the collaborator base profile has none). -/
theorem C9_predictor_silently_dropped (base out_profile : PyDict)
    (b dt q : CVal)
    (hb : out_profile "bands" = some b) (hd : out_profile "dtype" = some dt)
    (h1 : out_profile "compression" = none)
    (h2 : out_profile "compress" = none)
    (hq : out_profile "predictor" = some q)
    (hbase : base "predictor" = none) :
    (OutputData.profile base out_profile none).map (fun d => d "predictor")
      = some none := by
  obtain ⟨p, hp, -, -, -, -, hpred⟩ :=
    profile_lookups base out_profile none b dt hb hd
  rw [h1, h2] at hpred
  simp only [] at hpred
  rw [hp]
  simp [hpred, hbase]

/-- Output profile configuration with a predictor but no compress key. -/
def c9Profile : PyDict :=
  (((PyDict.empty.set "driver" (.str "GTiff")).set "bands" (.int 1)).set
      "dtype" (.str "uint8")).set "predictor" (.int 2)

/-- Witness for C9. -/
theorem C9_predictor_silently_dropped_witness :
    c9Profile "predictor" = some (.int 2)
      ∧ c9Profile "compression" = none
      ∧ c9Profile "compress" = none
      ∧ (OutputData.profile sampleBase c9Profile none).map
          (fun d => d "predictor") = some none :=
  ⟨by decide, by decide, by decide,
    C9_predictor_silently_dropped sampleBase c9Profile (.int 1) (.str "uint8")
      (.int 2) (by decide) (by decide) (by decide) (by decide) (by decide)
      (by decide)⟩

/-- C8: `is_valid_with_config` returns `False` when the `bucket` key is
absent (with the `profile` sub-dict present), and returns `True` for any
fully-populated configuration: a profile dict with string driver, integer
bands and string dtype, plus string basekey and string bucket. -/
theorem C8_is_valid_with_config (config prof : List (String × ConfVal))
    (hp : config.lookup "profile" = some (.dict prof))
    (hb : config.lookup "bucket" = none) :
    is_valid_with_config config = some false
      ∧ ∀ (c2 p2 : List (String × ConfVal)) (d bk bu dt : String) (bands : Int),
          c2.lookup "profile" = some (.dict p2) →
          c2.lookup "basekey" = some (.str bk) →
          c2.lookup "bucket" = some (.str bu) →
          p2.lookup "driver" = some (.str d) →
          p2.lookup "bands" = some (.int bands) →
          p2.lookup "dtype" = some (.str dt) →
          is_valid_with_config c2 = some true := by
  constructor
  · unfold is_valid_with_config
    rw [hp]
    unfold validate_values
    simp [hb, hp, confHasType]
  · intro c2 p2 d bk bu dt bands h1 h2 h3 h4 h5 h6
    unfold is_valid_with_config
    rw [h1]
    unfold validate_values
    simp [h1, h2, h3, h4, h5, h6, confHasType]

/-- A config whose `bucket` key is missing. -/
def c8BadConfig : List (String × ConfVal) :=
  [("profile", .dict
      [("driver", .str "GTiff"), ("bands", .int 1), ("dtype", .str "uint8")]),
   ("basekey", .str "k")]

/-- A fully-populated config. -/
def c8GoodConfig : List (String × ConfVal) :=
  [("profile", .dict
      [("driver", .str "GTiff"), ("bands", .int 1), ("dtype", .str "uint8")]),
   ("basekey", .str "k"), ("bucket", .str "b")]

/-- Witness for C8. -/
theorem C8_is_valid_with_config_witness :
    is_valid_with_config c8BadConfig = some false
      ∧ is_valid_with_config c8GoodConfig = some true :=
  ⟨(C8_is_valid_with_config c8BadConfig
      [("driver", .str "GTiff"), ("bands", .int 1), ("dtype", .str "uint8")]
      rfl rfl).1,
    (C8_is_valid_with_config c8BadConfig
      [("driver", .str "GTiff"), ("bands", .int 1), ("dtype", .str "uint8")]
      rfl rfl).2 c8GoodConfig
      [("driver", .str "GTiff"), ("bands", .int 1), ("dtype", .str "uint8")]
      "GTiff" "k" "b" "uint8" 1 rfl rfl rfl rfl rfl rfl⟩

/-- C4: for an output tile whose canonical key has no stored object (and
which is its own only intersecting output-grid tile), `read` does not
raise (it returns a value) and yields a masked array of shape
(band count × tile height × tile width), fully masked and filled with the
configured nodata value, built from the output profile. -/
theorem C4_read_missing_returns_empty (base out_profile : PyDict)
    (basekey : String) (intersecting : Tile → List Tile) (store : Store)
    (t : Tile) (b nd : Int) (dt : String)
    (hb : out_profile "bands" = some (.int b))
    (hd : out_profile "dtype" = some (.str dt))
    (hn : out_profile "nodata" = some (.int nd))
    (hint : intersecting t = [t])
    (habs : ∀ kv ∈ store, kv.1 ≠ get_bucket_key basekey t) :
    OutputData.read base out_profile basekey intersecting store t
      = some { data := full3 b.toNat t.height t.width nd,
               mask := full3 b.toNat t.height t.width true } := by
  rw [read_absent_eq_empty base out_profile basekey intersecting store t
    hint habs]
  unfold OutputData.empty
  obtain ⟨p, hp, hcount, -, hnod, -, -⟩ :=
    profile_lookups base out_profile (some t) (.int b) (.str dt) hb hd
  rw [hn] at hnod
  simp only [] at hnod
  rw [hp]
  simp [hcount, hnod]

/-- Witness for C4: reading tile (5, 15, 32) from an empty bucket yields
the 3×256×256 array of nodata 5, fully masked. -/
theorem C4_read_missing_returns_empty_witness :
    OutputData.read sampleBase sampleProfile "k" (fun x => [x]) [] sampleTile
      = some { data := full3 3 256 256 5, mask := full3 3 256 256 true } :=
  C4_read_missing_returns_empty sampleBase sampleProfile "k" (fun x => [x])
    [] sampleTile 3 5 "uint8" (by decide) (by decide) (by decide) rfl
    (by simp)

/-- C3: when the normalized data is fully masked, `write` returns with
the object store untouched and zero uploads; any output tile that was
never written (its canonical key absent) subsequently reads as the
canonical empty masked array built by `empty`. -/
theorem C3_write_fully_masked_is_noop {α : Type} (base out_profile : PyDict)
    (basekey : String) (nodata : CVal) (intersecting : Tile → List Tile)
    (prepare_array : α → CVal → CVal → MaskedArray)
    (render : Tile → MaskedArray → Tags → MaskedArray)
    (process_tile : Tile) (input : WriteInput α) (store : Store)
    (b dt : CVal)
    (hb : out_profile "bands" = some b) (hd : out_profile "dtype" = some dt)
    (hmask : (prepare_array input.payload nodata dt).maskAll = true) :
    OutputData.write base out_profile basekey nodata intersecting
        prepare_array render process_tile input store = some (store, [])
      ∧ ∀ t, intersecting t = [t] →
          (∀ kv ∈ store, kv.1 ≠ get_bucket_key basekey t) →
          OutputData.read base out_profile basekey intersecting store t
            = OutputData.empty base out_profile t := by
  constructor
  · obtain ⟨p, hp, -, hdt, -, -, -⟩ :=
      profile_lookups base out_profile (some process_tile) b dt hb hd
    rcases input with d | ⟨d, tg⟩ <;>
      simp only [WriteInput.payload] at hmask <;>
        simp [OutputData.write, hp, hdt, hmask]
  · intro t ht habs
    exact read_absent_eq_empty base out_profile basekey intersecting store t
      ht habs

/-- A fully masked 1×1×1 array. -/
def maskedArr : MaskedArray := { data := [[[0]]], mask := [[[true]]] }

/-- Witness for C3: writing fully masked data over the `c1Store` listing
leaves it unchanged with no uploads, and tile (5, 15, 32) — never
written — reads as `empty`. -/
theorem C3_write_fully_masked_is_noop_witness :
    OutputData.write sampleBase sampleProfile "k" (.int 5) (fun x => [x])
        (fun (a : MaskedArray) _ _ => a) (fun _ a _ => a) sampleTile
        (.plain maskedArr) c1Store = some (c1Store, [])
      ∧ OutputData.read sampleBase sampleProfile "k" (fun x => [x]) c1Store
          sampleTile = OutputData.empty sampleBase sampleProfile sampleTile :=
  ⟨(C3_write_fully_masked_is_noop sampleBase sampleProfile "k" (.int 5)
      (fun x => [x]) (fun (a : MaskedArray) _ _ => a) (fun _ a _ => a)
      sampleTile (.plain maskedArr) c1Store (.int 3) (.str "uint8")
      (by decide) (by decide) (by decide)).1,
    (C3_write_fully_masked_is_noop sampleBase sampleProfile "k" (.int 5)
      (fun x => [x]) (fun (a : MaskedArray) _ _ => a) (fun _ a _ => a)
      sampleTile (.plain maskedArr) c1Store (.int 3) (.str "uint8")
      (by decide) (by decide) (by decide)).2 sampleTile rfl (by decide)⟩

/-- C7: `InputTile.read` defaults to all bands 1..count when no indexes
are given; a single requested band (scalar, or one-element list) returns
that single 2-D band `arr[i-1]`; two or more requested bands return the
stack of `arr[i-1]` in exactly the requested order (duplicates and
reordering allowed, since the requested list is used as-is). -/
theorem C7_band_selection {β : Type} (arr : Int → β) (count : Int)
    (hc : 0 ≤ count) :
    (∀ k : Int, k ∈ _get_band_indexes count .noneGiven ↔ 1 ≤ k ∧ k ≤ count)
      ∧ (∀ i : Int, i ≠ 0 →
          InputTile.read arr count (.single i) = .band2D (arr (i - 1)))
      ∧ (∀ i : Int, InputTile.read arr count (.list [i])
          = .band2D (arr (i - 1)))
      ∧ (∀ l : List Int, 2 ≤ l.length →
          InputTile.read arr count (.list l)
            = .stacked (l.map fun i => arr (i - 1))) := by
  refine ⟨?_, ?_, ?_, ?_⟩
  · intro k
    unfold _get_band_indexes bandRange
    constructor
    · intro hk
      obtain ⟨j, hj, hjk⟩ := List.mem_map.mp hk
      have hj' := List.mem_range.mp hj
      have hjk' : Int.ofNat j + 1 = k := hjk
      rw [Int.ofNat_eq_natCast] at hjk'
      omega
    · intro hk
      obtain ⟨h1, h2⟩ := hk
      refine List.mem_map.mpr ⟨(k - 1).toNat, List.mem_range.mpr (by omega), ?_⟩
      show Int.ofNat (k - 1).toNat + 1 = k
      rw [Int.ofNat_eq_natCast]
      omega
  · intro i hi
    unfold InputTile.read _get_band_indexes
    simp [hi]
  · intro i
    unfold InputTile.read _get_band_indexes
    simp
  · intro l hl
    rcases l with _ | ⟨a, _ | ⟨b, tl⟩⟩
    · simp at hl
    · simp at hl
    · rfl

/-- Witness for C7 with `arr i = i` and three bands. -/
theorem C7_band_selection_witness :
    (0 : Int) ≤ 3
      ∧ ((∀ k : Int, k ∈ _get_band_indexes 3 .noneGiven ↔ 1 ≤ k ∧ k ≤ 3)
        ∧ (∀ i : Int, i ≠ 0 →
            InputTile.read (fun i : Int => i) 3 (.single i)
              = .band2D (i - 1))
        ∧ (∀ i : Int, InputTile.read (fun i : Int => i) 3 (.list [i])
            = .band2D (i - 1))
        ∧ (∀ l : List Int, 2 ≤ l.length →
            InputTile.read (fun i : Int => i) 3 (.list l)
              = .stacked (l.map fun i => i - 1))) :=
  ⟨by decide, C7_band_selection (fun i : Int => i) 3 (by decide)⟩
